import Mathlib

/-!
Shallow embedding of the mmlib save/recover subsystem:
`src/schema/restorable_object.py` (restorable-object wrappers) and
`src/mmlib/save.py` (`SimpleSaveRecoverService`).

Python dicts with string keys are modelled as association lists,
store-minted identifiers as natural numbers handed out by a counter,
raised exceptions as `Except Err`, and blob/record stores as explicit
state threaded through each operation.  Store state is returned on every
path (a Python exception does not roll back store writes already made).
-/

namespace Mmlib

/-- Association list with string keys, modelling a Python `dict` whose
keys are strings (keys unique in every dict the code builds). -/
abbrev Assoc := List (String × String)

/-- Lookup in an association list with string keys (first match). -/
def lookupS {α : Type} : List (String × α) → String → Option α
  | [], _ => none
  | (k, v) :: rest, key => if k = key then some v else lookupS rest key

/-- Lookup in an association list with numeric keys (first match). -/
def lookupN {α : Type} : List (Nat × α) → Nat → Option α
  | [], _ => none
  | (k, v) :: rest, key => if k = key then some v else lookupN rest key

/-- Python `d[k] = v` on a dict: overwrite the entry for `k` in place if
present (keys are unique in a dict), otherwise append a new entry at the
end. -/
def insertA : Assoc → String → String → Assoc
  | [], k, v => [(k, v)]
  | (a, b) :: rest, k, v =>
      if a = k then (k, v) :: rest else (a, b) :: insertA rest k v

/-- The keys of an association list. -/
def keysA {α : Type} (l : List (String × α)) : List String := l.map Prod.fst

/-- `a ⊆ b` on string lists, executable. -/
def subsetL (a b : List String) : Bool := a.all (fun x => b.contains x)

/-- Python `set(a) == set(b)` on string collections. -/
def setEqL (a b : List String) : Bool := subsetL a b && subsetL b a

/-- Error kinds raised by the embedded code.  Python `assert` failures
are represented by the structured kind the spec names for them. -/
inductive Err where
  /-- the code/import mutual exclusion assert (spec: MutuallyExclusiveFieldViolation) -/
  | mutualExclusion (msg : String)
  /-- the reference-argument set check (spec: ReferenceArgumentMismatch);
  carries the declared names and the supplied arguments -/
  | refArgMismatch (expected : List String) (given : Option Assoc)
  /-- Python `KeyError` from an unguarded dict access -/
  | keyError (key : String)
  /-- an id absent from the blob or record store (spec: UnknownId) -/
  | unknownId (id : Nat)
  /-- attribute access on a `None` instance -/
  | noInstance
  /-- backend failure surfaced unchanged (spec: StoreUnavailable) -/
  | storeUnavailable
  deriving Repr, DecidableEq

/-- Message of the assert at src/schema/restorable_object.py line 52. -/
def codeSetMsg : String := "if code is set then there should be no import cmd"

/-- Message of the assert at src/schema/restorable_object.py line 56. -/
def importSetMsg : String := "if import_cmd is set then there should be no code"

/-- The record a restorable-object wrapper persists
(`dict_representation` in the Python code).  A field whose key the code
may leave out of the dict is an `Option`; an unguarded `restored_dict[K]`
on a missing key is a `KeyError`. -/
structure RORecord where
  /-- the `ID` field the generic persist driver embeds in the dict -/
  rid : Nat
  class_name : String
  code_file : Option Nat
  import_cmd : Option String
  init_args : Option Assoc
  config_args : Option Assoc
  init_ref_type_args : Option (List String)
  state_file : Option Nat
  /-- mapping child name → child record id (StateDictRestorableObjectWrapper) -/
  state_dict : Option (List (String × Nat))
  deriving Repr, DecidableEq

/-- An empty `dict_representation` before any field is set. -/
def emptyRec (rid : Nat) : RORecord :=
  { rid := rid, class_name := "", code_file := none, import_cmd := none,
    init_args := none, config_args := none, init_ref_type_args := none,
    state_file := none, state_dict := none }

/-- A deterministic measure of a record's encoded size, standing for the
record store's `dict_size` (BSON size in the MongoDB backend). -/
def RORecord.encodedSize (r : RORecord) : Nat :=
  r.rid + r.class_name.length
    + (r.init_args.getD []).length + (r.config_args.getD []).length
    + (r.init_ref_type_args.getD []).length + 1

/-- Combined state of the persistence port and the local filesystem seen
by the restorable-object code: a fresh-id counter, the blob store
(id → file content), the restorable-object record store, and the local
filesystem (path → content) from which code files are read and into
which blobs are materialized. -/
structure ROStore where
  nextId : Nat
  files : List (Nat × String)
  dicts : List (Nat × RORecord)
  fs : List (String × String)
  deriving Repr, DecidableEq

/-- `generate_id`: mint a fresh identifier. -/
def ROStore.generateId (st : ROStore) : Nat × ROStore :=
  (st.nextId, { st with nextId := st.nextId + 1 })

/-- `save_file(path)`: read the local file and store its content as a
blob under a fresh id. -/
def ROStore.saveFile (st : ROStore) (path : String) :
    Except Err Nat × ROStore :=
  match lookupS st.fs path with
  | none => (.error (.keyError path), st)
  | some content =>
      (.ok st.nextId,
       { st with nextId := st.nextId + 1, files := (st.nextId, content) :: st.files })

/-- `file_size(id)`: size of a stored blob. -/
def ROStore.fileSize (st : ROStore) (fid : Nat) : Except Err Nat :=
  match lookupN st.files fid with
  | none => .error (.unknownId fid)
  | some content => .ok content.length

/-- `recover_file(id, restore_root)`: materialize the blob's content at
a path under `restore_root` and return that path. -/
def ROStore.recoverFile (st : ROStore) (fid : Nat) (root : String) :
    Except Err String × ROStore :=
  match lookupN st.files fid with
  | none => (.error (.unknownId fid), st)
  | some content =>
      let path := root ++ "/" ++ toString fid
      (.ok path, { st with fs := (path, content) :: st.fs })

/-- `save_dict(dict_representation, RESTORABLE_OBJECT)`: store the
record under the id embedded in its `ID` field. -/
def ROStore.saveDict (st : ROStore) (rec : RORecord) : ROStore :=
  { st with dicts := (rec.rid, rec) :: st.dicts }

/-- The object built by `create_object_with_parameters`.
Modelled from the spec: `util/init_from_file.create_object_with_parameters`
is not under src/; §4.2 step 4 says it calls the constructor named by the
type identity with the merged constructor args plus the live reference
args, resolving the code file or the import path. -/
structure PyInstance where
  code : Option String
  import_cmd : Option String
  class_name : String
  init_args : Assoc
  init_ref_type_args : Option Assoc
  deriving Repr, DecidableEq

/-- `RestorableObjectWrapper` (src/schema/restorable_object.py lines
60-145): type identity, constructor args, reference-arg names, config
args, a local code path or an import command, the store id and the live
instance. -/
structure RestorableObjectWrapper where
  class_name : String
  init_args : Assoc
  init_ref_type_args : List String
  config_args : Assoc
  code : Option String
  import_cmd : Option String
  inst : Option PyInstance
  store_id : Option Nat
  deriving Repr, DecidableEq

namespace RestorableObjectWrapper

/-- `AbstractRestorableObjectWrapper._persist_class_specific_fields`
(lines 45-57): set the mandatory class name; if a code path is set,
assert no import command and upload the code file; if an import command
is set, assert no code path and record the command. -/
def abstractPersistFields (w : RestorableObjectWrapper) (rep : RORecord)
    (st : ROStore) : Except Err RORecord × ROStore :=
  let rep := { rep with class_name := w.class_name }
  match w.code with
  | some codePath =>
      if w.import_cmd ≠ none then (.error (.mutualExclusion codeSetMsg), st)
      else
        match st.saveFile codePath with
        | (.error e, st) => (.error e, st)
        | (.ok cid, st) => (.ok { rep with code_file := some cid }, st)
  | none =>
      match w.import_cmd with
      | some cmd =>
          if w.code ≠ none then (.error (.mutualExclusion importSetMsg), st)
          else (.ok { rep with import_cmd := some cmd }, st)
      | none => (.ok rep, st)

/-- `RestorableObjectWrapper._persist_class_specific_fields` (lines
74-80): the abstract fields plus init args, config args and the
reference-arg name list. -/
def rowPersistFields (w : RestorableObjectWrapper) (rep : RORecord)
    (st : ROStore) : Except Err RORecord × ROStore :=
  match abstractPersistFields w rep st with
  | (.error e, st) => (.error e, st)
  | (.ok rep, st) =>
      (.ok { rep with init_args := some w.init_args,
                      config_args := some w.config_args,
                      init_ref_type_args := some w.init_ref_type_args }, st)

/-- Modelled from the spec: the generic `SchemaObj.persist` driver is
not under src/ (src/schema/schema_obj.py only declares it abstract, and
the subclasses call `super()._persist_fields`).  §4.1: "persist(...)
-> id: writes all owned blobs, then writes its own record (which
references those blob ids), returns the new record id", each call
producing a new id.  It mints the id, embeds it as the record's `ID`
field, delegates the class-specific fields, saves the record and
returns the id. -/
def persist (w : RestorableObjectWrapper) (st : ROStore) :
    Except Err (Nat × RestorableObjectWrapper) × ROStore :=
  let sid := st.generateId.1
  let st := st.generateId.2
  match rowPersistFields w (emptyRec sid) st with
  | (.error e, st) => (.error e, st)
  | (.ok rep, st) =>
      (.ok (sid, { w with store_id := some sid }), st.saveDict rep)

/-- `RestorableObjectWrapper.load` together with `_restore_fields`
(lines 82-106): recover the record, read its fields (`KeyError` on a
missing mandatory key, the code file recovered into `restore_root` when
present, the import command optional) and rebuild the wrapper. -/
def load (objId : Nat) (st : ROStore) (root : String) :
    Except Err RestorableObjectWrapper × ROStore :=
  match lookupN st.dicts objId with
  | none => (.error (.unknownId objId), st)
  | some rec =>
      match rec.init_args with
      | none => (.error (.keyError "init_args"), st)
      | some initArgs =>
          match rec.config_args with
          | none => (.error (.keyError "config_args"), st)
          | some configArgs =>
              match rec.init_ref_type_args with
              | none => (.error (.keyError "init_ref_type_args"), st)
              | some refTypeArgs =>
                  match rec.code_file with
                  | some cid =>
                      match st.recoverFile cid root with
                      | (.error e, st) => (.error e, st)
                      | (.ok path, st) =>
                          (.ok { class_name := rec.class_name, init_args := initArgs,
                                 init_ref_type_args := refTypeArgs, config_args := configArgs,
                                 code := some path, import_cmd := rec.import_cmd,
                                 inst := none, store_id := some objId }, st)
                  | none =>
                      (.ok { class_name := rec.class_name, init_args := initArgs,
                             init_ref_type_args := refTypeArgs, config_args := configArgs,
                             code := none, import_cmd := rec.import_cmd,
                             inst := none, store_id := some objId }, st)

/-- `RestorableObjectWrapper.size_in_bytes` (lines 108-122): the size of
the stored record, plus the code blob's size when the record has a code
file, plus — read without a guard — the state blob's size
(`restored_dict[STATE_FILE]`). -/
def size_in_bytes (w : RestorableObjectWrapper) (st : ROStore) : Except Err Nat :=
  match w.store_id with
  | none => .error (.keyError "store_id")
  | some sid =>
      match lookupN st.dicts sid with
      | none => .error (.unknownId sid)
      | some rec =>
          let r := rec.encodedSize
          let withCode : Except Err Nat :=
            match rec.code_file with
            | some cid =>
                match st.fileSize cid with
                | .error e => .error e
                | .ok s => .ok (r + s)
            | none => .ok r
          match withCode with
          | .error e => .error e
          | .ok r =>
              match rec.state_file with
              | none => .error (.keyError "state_file")
              | some fid =>
                  match st.fileSize fid with
                  | .error e => .error e
                  | .ok s => .ok (r + s)

end RestorableObjectWrapper

/-- `add_params_from_config` (lines 278-284): for each config-arg entry
`k → v`, set `init_args[k]` to the configuration value of `v`.  The
external configuration file's value section is modelled by `conf`. -/
def add_params_from_config (initArgs : Assoc) (configArgs : Assoc)
    (conf : String → String) : Assoc :=
  configArgs.foldl (fun acc kv => insertA acc kv.1 (conf kv.2)) initArgs

/-- Python truthiness of the optional reference-args dict: `None` and
the empty dict are falsy. -/
def truthyArgs : Option Assoc → Bool
  | none => false
  | some l => !l.isEmpty

namespace RestorableObjectWrapper

/-- `RestorableObjectWrapper.restore_instance` (lines 124-138): check
the reference-arg names against the declared list, merge config args
into the init args (mutating the stored init args in place), and build
the instance.  The returned wrapper carries the mutated init args and
the fresh instance. -/
def restore_instance (w : RestorableObjectWrapper) (refTypeArgs : Option Assoc)
    (conf : String → String) : Except Err RestorableObjectWrapper :=
  if !w.init_ref_type_args.isEmpty || truthyArgs refTypeArgs then
    if !(!w.init_ref_type_args.isEmpty && truthyArgs refTypeArgs) then
      .error (.refArgMismatch w.init_ref_type_args refTypeArgs)
    else if !setEqL (keysA (refTypeArgs.getD [])) w.init_ref_type_args then
      .error (.refArgMismatch w.init_ref_type_args refTypeArgs)
    else
      let initArgs :=
        if w.config_args.length > 0 then
          add_params_from_config w.init_args w.config_args conf
        else w.init_args
      .ok { w with init_args := initArgs,
                   inst := some { code := w.code, import_cmd := w.import_cmd,
                                  class_name := w.class_name, init_args := initArgs,
                                  init_ref_type_args := refTypeArgs } }
  else
    let initArgs :=
      if w.config_args.length > 0 then
        add_params_from_config w.init_args w.config_args conf
      else w.init_args
    .ok { w with init_args := initArgs,
                 inst := some { code := w.code, import_cmd := w.import_cmd,
                                class_name := w.class_name, init_args := initArgs,
                                init_ref_type_args := refTypeArgs } }

end RestorableObjectWrapper

/-- Content of the code file a wrapper points at (`none` when no code
path is set or the file is absent). -/
def codeContent (st : ROStore) : Option String → Option String
  | none => none
  | some p => lookupS st.fs p

/-! ## StateFileRestorableObjectWrapper and the state-dict composite -/

/-- `StateFileRestorableObjectWrapper` (lines 197-268): a restorable
object wrapper with an optional binary state.  The live instance's
internal state is modelled by the content `_save_instance_state` would
write (`none` when no instance is set); `state_file` is the local path
of a previously recovered state file. -/
structure StateFileWrapper extends RestorableObjectWrapper where
  instState : Option String
  state_file : Option String
  deriving Repr, DecidableEq

namespace StateFileWrapper

/-- `StateFileRestorableObjectWrapper.persist` (lines 203-221): always
generate a new id ("the state of the instance has probably changed"),
build the field representation, and if an instance is set write its
state to a scoped temporary file (removed on every path by the
`tempfile.TemporaryDirectory` context manager) and upload it as the
state blob; finally save the record. -/
def persist (w : StateFileWrapper) (st : ROStore) :
    Except Err (Nat × StateFileWrapper) × ROStore :=
  let sid := st.generateId.1
  let st := st.generateId.2
  match RestorableObjectWrapper.rowPersistFields w.toRestorableObjectWrapper
      (emptyRec sid) st with
  | (.error e, st) => (.error e, st)
  | (.ok rep, st) =>
      match w.instState with
      | some content =>
          let fid := st.nextId
          let st := { st with nextId := fid + 1, files := (fid, content) :: st.files }
          let rep := { rep with state_file := some fid }
          (.ok (sid, { w with store_id := some sid }), st.saveDict rep)
      | none =>
          (.ok (sid, { w with store_id := some sid }), st.saveDict rep)

end StateFileWrapper

/-- `StateDictObj` (lines 148-150): a composite whose state is a mapping
of named child restorable-object wrappers. -/
structure StateDictObj where
  state_objs : List (String × StateFileWrapper)
  deriving Repr, DecidableEq

/-- The value held by the composite wrapper's `import_cmd` slot: in
Python it is dynamically typed, and the constructor slip of
`StateDictRestorableObjectWrapper.__init__` can place the live
`StateDictObj` there instead of an import-command string. -/
inductive ImportSlot where
  | str (s : String)
  | obj (o : StateDictObj)
  deriving Repr, DecidableEq

/-- `StateDictRestorableObjectWrapper` (lines 153-194). -/
structure StateDictROW where
  class_name : String
  code : Option String
  import_cmd : Option ImportSlot
  inst : Option StateDictObj
  store_id : Option Nat
  deriving Repr, DecidableEq

/-- `StateDictRestorableObjectWrapper.__init__` (lines 155-157 together
with `AbstractRestorableObjectWrapper.__init__`, lines 37-43):
`super().__init__(class_name, code, instance, store_id)` passes its
arguments positionally, so the `instance` argument lands in the
parent's `import_cmd` parameter and the `store_id` argument in the
parent's `instance` parameter, leaving the parent's `store_id`
parameter at its default `None`; line 157 then overwrites
`self.instance` with the `instance` argument. -/
def mkStateDictROW (class_name : String) (code : Option String)
    (inst : Option StateDictObj) (store_id : Option Nat) : StateDictROW :=
  let _ := store_id
  { class_name := class_name, code := code,
    import_cmd := inst.map ImportSlot.obj,
    inst := inst,
    store_id := none }

/-- The per-child loop of
`StateDictRestorableObjectWrapper._persist_class_specific_fields`
(lines 163-167): persist each child in mapping order and collect the
name → fresh-id mapping. -/
def persistChildren : List (String × StateFileWrapper) → ROStore →
    Except Err (List (String × Nat)) × ROStore
  | [], st => (.ok [], st)
  | (k, c) :: rest, st =>
      match c.persist st with
      | (.error e, st) => (.error e, st)
      | (.ok (cid, _), st) =>
          match persistChildren rest st with
          | (.error e, st) => (.error e, st)
          | (.ok refs, st) => (.ok ((k, cid) :: refs), st)

namespace StateDictROW

/-- The abstract-field step of the composite's persist: the mandatory
class name and the code/import branches of
`AbstractRestorableObjectWrapper._persist_class_specific_fields`
(lines 45-57), with the composite's dynamically typed `import_cmd`
slot. -/
def sdAbstractFields (w : StateDictROW) (rep : RORecord) (st : ROStore) :
    Except Err RORecord × ROStore :=
  let rep := { rep with class_name := w.class_name }
  match w.code with
  | some codePath =>
      if w.import_cmd ≠ none then (.error (.mutualExclusion codeSetMsg), st)
      else
        match st.saveFile codePath with
        | (.error e, st) => (.error e, st)
        | (.ok cid, st) => (.ok { rep with code_file := some cid }, st)
  | none =>
      match w.import_cmd with
      | some slot =>
          if w.code ≠ none then (.error (.mutualExclusion importSetMsg), st)
          else
            match slot with
            | .str s => (.ok { rep with import_cmd := some s }, st)
            | .obj _ => (.ok rep, st)
      | none => (.ok rep, st)

/-- `StateDictRestorableObjectWrapper._persist_class_specific_fields`
(lines 159-169) under the generic persist driver (modelled from the
spec as for `RestorableObjectWrapper.persist`): mandatory class name,
the code/import mutual-exclusion asserts of lines 45-57, then every
child of the live instance's state dict is persisted and the resulting
name → id mapping is stored in the composite's own record under the
state-dict key. -/
def persist (w : StateDictROW) (st : ROStore) :
    Except Err (Nat × StateDictROW) × ROStore :=
  let sid := st.generateId.1
  let st := st.generateId.2
  match sdAbstractFields w (emptyRec sid) st with
  | (.error e, st) => (.error e, st)
  | (.ok rep, st) =>
      match w.inst with
      | none => (.error .noInstance, st)
      | some instObj =>
          match persistChildren instObj.state_objs st with
          | (.error e, st) => (.error e, st)
          | (.ok refs, st) =>
              let rep := { rep with state_dict := some refs }
              (.ok (sid, { w with store_id := some sid }), st.saveDict rep)

end StateDictROW

/-! ## SimpleSaveRecoverService (src/mmlib/save.py) -/

/-- A blob held by the orchestrator's persistence service.  The zip
archive produced by `_pickle_model` is the staging directory holding
the pickled model weights and the code mirrored relative to the import
root; the code file is uploaded separately as well. -/
inductive Blob where
  | zipArchive (model : Nat) (codePath : String) (importRoot : String)
  | codeFile (codePath : String)
  deriving Repr, DecidableEq

/-- The `recover_info_t1` record written by `save_model`
(lines 131-136). -/
structure RecoverInfoT1Rec where
  pickled_model : Nat
  model_code : Nat
  generate_call : String
  recover_val : Option Nat
  deriving Repr, DecidableEq

/-- The `model_dict` record written by `save_model` (lines 139-147).
`SaveType.PICKLED_MODEL.value = 1`. -/
structure ModelInfoRec where
  name : String
  store_type : Nat
  recover_info : Nat
  derived_from : Option Nat
  inference_info : Option Nat
  train_info : Option Nat
  deriving Repr, DecidableEq

/-- State of the orchestrator's persistence service plus the local
filesystem paths its staging steps create.  `failAt`/`opCount` inject a
backend failure at a chosen store call (blob upload or record write) to
exercise the error exit paths. -/
structure SrvState where
  nextId : Nat
  files : List (Nat × Blob)
  recoverDicts : List (Nat × RecoverInfoT1Rec)
  modelDicts : List (Nat × ModelInfoRec)
  localFiles : List String
  failAt : Option Nat
  opCount : Nat
  deriving Repr, DecidableEq

namespace SrvState

/-- `save_file` on the orchestrator's service, with fault injection. -/
def trySaveFile (st : SrvState) (b : Blob) : Except Err Nat × SrvState :=
  if st.failAt = some st.opCount then
    (.error .storeUnavailable, { st with opCount := st.opCount + 1 })
  else
    (.ok st.nextId,
     { st with opCount := st.opCount + 1, nextId := st.nextId + 1,
               files := (st.nextId, b) :: st.files })

/-- `save_dict(recover_info_t1, RECOVER_T1)`, with fault injection. -/
def trySaveRecoverDict (st : SrvState) (r : RecoverInfoT1Rec) :
    Except Err Nat × SrvState :=
  if st.failAt = some st.opCount then
    (.error .storeUnavailable, { st with opCount := st.opCount + 1 })
  else
    (.ok st.nextId,
     { st with opCount := st.opCount + 1, nextId := st.nextId + 1,
               recoverDicts := (st.nextId, r) :: st.recoverDicts })

/-- `save_dict(model_dict, MODEL_INFO)`, with fault injection. -/
def trySaveModelDict (st : SrvState) (r : ModelInfoRec) :
    Except Err Nat × SrvState :=
  if st.failAt = some st.opCount then
    (.error .storeUnavailable, { st with opCount := st.opCount + 1 })
  else
    (.ok st.nextId,
     { st with opCount := st.opCount + 1, nextId := st.nextId + 1,
               modelDicts := (st.nextId, r) :: st.modelDicts })

end SrvState

/-- `SimpleSaveRecoverService.save_model` (src/mmlib/save.py lines
121-150), step for step: pick the staging path from a fresh id under
the service's temp root; `_pickle_model` creates the staging directory
(model dump plus mirrored code) and zips it next to it; upload the zip
and the code file as blobs; `_clean` removes the staging directory and
the zip file; write the recover-info record referencing the two blob
ids plus the generate call; write the model record referencing the
recover-info id with `derived_from = None` and
`store_type = PICKLED_MODEL`; return the model record's id.  A store
failure raises at that point, leaving earlier effects in place. -/
def save_model (name generate_call : String) (model : Nat) (code : String)
    (import_root : String) (tmp_path : String) (st : SrvState) :
    Except Err Nat × SrvState :=
  let dstPath := tmp_path ++ "/" ++ toString st.nextId
  let st := { st with nextId := st.nextId + 1 }
  let zipFile := dstPath ++ ".zip"
  let st := { st with localFiles := zipFile :: dstPath :: st.localFiles }
  match st.trySaveFile (.zipArchive model code import_root) with
  | (.error e, st) => (.error e, st)
  | (.ok zipId, st) =>
      match st.trySaveFile (.codeFile code) with
      | (.error e, st) => (.error e, st)
      | (.ok codeId, st) =>
          let st := { st with
            localFiles := st.localFiles.filter (fun p => p ≠ dstPath && p ≠ zipFile) }
          let recRec : RecoverInfoT1Rec :=
            { pickled_model := zipId, model_code := codeId,
              generate_call := generate_call, recover_val := none }
          match st.trySaveRecoverDict recRec with
          | (.error e, st) => (.error e, st)
          | (.ok recId, st) =>
              let mRec : ModelInfoRec :=
                { name := name, store_type := 1, recover_info := recId,
                  derived_from := none, inference_info := none, train_info := none }
              match st.trySaveModelDict mRec with
              | (.error e, st) => (.error e, st)
              | (.ok mid, st) => (.ok mid, st)

/-- `SimpleSaveRecoverService.save_version` (src/mmlib/save.py lines
152-174): the body is `pass` (the remainder of the method is commented
out), so the call performs no store operation and returns `None`. -/
def save_version (model : Nat) (base_model_id : Nat) (st : SrvState) :
    Option Nat × SrvState :=
  let _ := model
  let _ := base_model_id
  (none, st)

/-! ## Concrete example inputs used to exercise the definitions -/

/-- A configuration environment mapping every key to `"cv"`. -/
def exConf : String → String := fun _ => "cv"

/-- A wrapper with a code file, one init arg, one config arg and one
declared reference-arg name. -/
def exW : RestorableObjectWrapper :=
  { class_name := "Net", init_args := [("layers", "2")],
    init_ref_type_args := ["data"], config_args := [("lr", "lrkey")],
    code := some "m.py", import_cmd := none, inst := none, store_id := none }

/-- A store whose local filesystem holds the example code file. -/
def exStore : ROStore :=
  { nextId := 0, files := [], dicts := [], fs := [("m.py", "class Net: pass")] }

/-- The wrapper returned by `exW.persist exStore`. -/
def exW1 : RestorableObjectWrapper := { exW with store_id := some 0 }

/-- The store after `exW.persist exStore`. -/
def exStore1 : ROStore :=
  { nextId := 2, files := [(1, "class Net: pass")],
    dicts := [(0, { rid := 0, class_name := "Net", code_file := some 1,
                    import_cmd := none, init_args := some [("layers", "2")],
                    config_args := some [("lr", "lrkey")],
                    init_ref_type_args := some ["data"],
                    state_file := none, state_dict := none })],
    fs := [("m.py", "class Net: pass")] }

/-- The wrapper returned by loading id 0 back from `exStore1`. -/
def exW2 : RestorableObjectWrapper :=
  { class_name := "Net", init_args := [("layers", "2")],
    init_ref_type_args := ["data"], config_args := [("lr", "lrkey")],
    code := some "root/1", import_cmd := none, inst := none, store_id := some 0 }

/-- The store after loading id 0 back from `exStore1`. -/
def exStore2 : ROStore :=
  { exStore1 with fs := ("root/1", "class Net: pass") :: exStore1.fs }

/-- A wrapper with neither a code file nor an import command. -/
def exNeitherW : RestorableObjectWrapper :=
  { class_name := "Net", init_args := [], init_ref_type_args := [],
    config_args := [], code := none, import_cmd := none, inst := none,
    store_id := none }

/-- A wrapper with both a code file and an import command. -/
def exBothW : RestorableObjectWrapper :=
  { exNeitherW with code := some "m.py", import_cmd := some "import m" }

/-- An import-command wrapper with a config arg, used to exercise the
config merge. -/
def exCfgW : RestorableObjectWrapper :=
  { class_name := "Net", init_args := [("layers", "2")],
    init_ref_type_args := [], config_args := [("lr", "lrkey")],
    code := none, import_cmd := some "import m", inst := none, store_id := none }

/-- The wrapper returned by `exCfgW.restore_instance none exConf`: the
config arg `lr` was resolved and merged into the stored init args. -/
def exCfgWRes : RestorableObjectWrapper :=
  { class_name := "Net", init_args := [("layers", "2"), ("lr", "cv")],
    init_ref_type_args := [], config_args := [("lr", "lrkey")],
    code := none, import_cmd := some "import m",
    inst := some { code := none, import_cmd := some "import m",
                   class_name := "Net",
                   init_args := [("layers", "2"), ("lr", "cv")],
                   init_ref_type_args := none },
    store_id := none }

/-- An empty orchestrator service state. -/
def exSrv : SrvState :=
  { nextId := 0, files := [], recoverDicts := [], modelDicts := [],
    localFiles := [], failAt := none, opCount := 0 }

/-- An orchestrator service state whose first store call fails. -/
def exSrvFail : SrvState := { exSrv with failAt := some 0 }

/-- A child wrapper (an optimizer-style state-file wrapper) with a live
instance state and a previous store id. -/
def exChild : StateFileWrapper :=
  { class_name := "SGD", init_args := [("lr", "0.1")], init_ref_type_args := [],
    config_args := [], code := none, import_cmd := some "from torch.optim import SGD",
    inst := none, store_id := some 0, instState := some "optstate", state_file := none }

/-- A live composite instance holding the child under the name
`optimizer`. -/
def exCompObj : StateDictObj := { state_objs := [("optimizer", exChild)] }

/-- A composite wrapper holding the live composite instance. -/
def exComp : StateDictROW :=
  { class_name := "Trainer", code := some "t.py", import_cmd := none,
    inst := some exCompObj, store_id := none }

/-- A store for the composite example. -/
def exCompStore : ROStore :=
  { nextId := 5, files := [], dicts := [], fs := [("t.py", "trainer code")] }

/-- The composite wrapper after persisting. -/
def exComp1 : StateDictROW := { exComp with store_id := some 5 }

/-- The store after persisting the composite: the child's record is
written under the fresh id 7 (its state blob under 8), the composite's
record under 5 with the state-dict mapping. -/
def exCompStore1 : ROStore :=
  { nextId := 9,
    files := [(8, "optstate"), (6, "trainer code")],
    dicts := [(5, { rid := 5, class_name := "Trainer", code_file := some 6,
                    import_cmd := none, init_args := none, config_args := none,
                    init_ref_type_args := none, state_file := none,
                    state_dict := some [("optimizer", 7)] }),
              (7, { rid := 7, class_name := "SGD", code_file := none,
                    import_cmd := some "from torch.optim import SGD",
                    init_args := some [("lr", "0.1")], config_args := some [],
                    init_ref_type_args := some [], state_file := some 8,
                    state_dict := none })],
    fs := [("t.py", "trainer code")] }

/-- The wrapper `exNeitherW` after a successful persist. -/
def exNeitherW1 : RestorableObjectWrapper := { exNeitherW with store_id := some 0 }

/-- The store after `exNeitherW.persist exStore`: a record was written
although neither a code file nor an import command is set. -/
def exNeitherStore1 : ROStore :=
  { nextId := 1, files := [],
    dicts := [(0, { rid := 0, class_name := "Net", code_file := none,
                    import_cmd := none, init_args := some [], config_args := some [],
                    init_ref_type_args := some [], state_file := none, state_dict := none })],
    fs := [("m.py", "class Net: pass")] }

/-- The service state after `save_model` on `exSrvFail`: the zip upload
failed and the staging directory and archive remain on disk. -/
def exSrvFail1 : SrvState :=
  { nextId := 1, files := [], recoverDicts := [], modelDicts := [],
    localFiles := ["/tmp/0.zip", "/tmp/0"], failAt := some 0, opCount := 1 }

/-! ## Theorems -/

/-- C2: for every wrapper whose descriptor declares a non-empty
reference-argument name list, calling `restore_instance` with a supplied
reference-argument set not equal to the declared name set fails with the
reference-argument-mismatch error carrying both sets; no instance is
constructed (the error is the whole result) and `restore_instance`
touches no store state (it takes none). -/
theorem restore_instance_ref_arg_mismatch
    (w : RestorableObjectWrapper) (refArgs : Option Assoc) (conf : String → String)
    (hdecl : w.init_ref_type_args ≠ [])
    (hmis : setEqL (keysA (refArgs.getD [])) w.init_ref_type_args = false) :
    w.restore_instance refArgs conf =
      .error (.refArgMismatch w.init_ref_type_args refArgs) := by
  have h1 : w.init_ref_type_args.isEmpty = false := by
    cases h : w.init_ref_type_args with
    | nil => exact absurd h hdecl
    | cons a l => rfl
  unfold RestorableObjectWrapper.restore_instance
  rw [h1]
  cases ht : truthyArgs refArgs with
  | false => simp [ht]
  | true => simp [ht, hmis]

/-- Witness for C2: a wrapper declaring `data` rejects the supplied set
containing only `bad`. -/
theorem restore_instance_ref_arg_mismatch_witness :
    exW.init_ref_type_args ≠ [] ∧
    setEqL (keysA ((some [("bad", "x")] : Option Assoc).getD []))
      exW.init_ref_type_args = false ∧
    exW.restore_instance (some [("bad", "x")]) exConf =
      .error (.refArgMismatch exW.init_ref_type_args (some [("bad", "x")])) :=
  ⟨by decide, by decide,
   restore_instance_ref_arg_mismatch exW (some [("bad", "x")]) exConf
     (by decide) (by decide)⟩

/-- Counterexample for C3: persisting a wrapper with neither the code
reference nor the import reference set does not fail — it succeeds and
writes a record (the claim says it fails with the mutual-exclusion
error before any store write). -/
theorem persist_neither_set_counterexample :
    exNeitherW.code = none ∧ exNeitherW.import_cmd = none ∧
    exNeitherW.persist exStore = (.ok (0, exNeitherW1), exNeitherStore1) ∧
    exNeitherStore1.dicts ≠ [] :=
  ⟨rfl, rfl, rfl, by simp [exNeitherStore1]⟩

/-- C3 (amended): persisting a wrapper in which both the code reference
and the import reference are set fails with the mutual-exclusion error,
and no blob, no record and no local file is written (only the freshly
generated id was consumed); with neither set, persist succeeds. -/
theorem persist_both_set_fails (w : RestorableObjectWrapper) (st : ROStore)
    (hc : w.code.isSome = true) (hi : w.import_cmd.isSome = true) :
    (w.persist st).1 = .error (.mutualExclusion codeSetMsg) ∧
    (w.persist st).2.files = st.files ∧
    (w.persist st).2.dicts = st.dicts ∧
    (w.persist st).2.fs = st.fs := by
  obtain ⟨p, hp⟩ := Option.isSome_iff_exists.mp hc
  obtain ⟨c, hcmd⟩ := Option.isSome_iff_exists.mp hi
  simp [RestorableObjectWrapper.persist, RestorableObjectWrapper.rowPersistFields,
        RestorableObjectWrapper.abstractPersistFields, ROStore.generateId, hp, hcmd]

/-- Witness for C3: evaluating the amended statement on the wrapper
with both fields set. -/
theorem persist_both_set_fails_witness :
    exBothW.code.isSome = true ∧ exBothW.import_cmd.isSome = true ∧
    ((exBothW.persist exStore).1 = .error (.mutualExclusion codeSetMsg) ∧
     (exBothW.persist exStore).2.files = exStore.files ∧
     (exBothW.persist exStore).2.dicts = exStore.dicts ∧
     (exBothW.persist exStore).2.fs = exStore.fs) :=
  ⟨rfl, rfl, persist_both_set_fails exBothW exStore rfl rfl⟩

/-- C5: `save_version` is an unimplemented stub — it returns `None`
instead of the id of a new model record with `derived_from` equal to
the base id, and leaves the store untouched. -/
theorem save_version_is_stub (model base_model_id : Nat) (st : SrvState) :
    save_version model base_model_id st = (none, st) := rfl

/-- C6: `size_in_bytes` on a record persisted by
`RestorableObjectWrapper.persist` (which never writes a state-file
field) raises a `KeyError` on the unguarded `restored_dict[STATE_FILE]`
access instead of returning the record-plus-blobs sum. -/
theorem size_in_bytes_fails_without_state_blob :
    exW.persist exStore = (.ok (0, exW1), exStore1) ∧
    exW1.size_in_bytes exStore1 = .error (.keyError "state_file") :=
  ⟨rfl, rfl⟩

/-- Counterexample for C7: when the zip-archive upload fails,
`save_model` raises without running `_clean`, leaving the staging
directory and the archive file under the call's staging root (the claim
says no files remain on every exit path). -/
theorem save_model_upload_failure_leaves_staging :
    save_model "n" "Net()" 42 "m.py" "proj" "/tmp" exSrvFail =
      (.error .storeUnavailable, exSrvFail1) ∧
    exSrvFail1.localFiles ≠ [] :=
  ⟨rfl, by simp [exSrvFail1]⟩

/-- C10: constructing a `StateDictRestorableObjectWrapper` with a class
name, a code path, a live instance and a store id binds the instance
argument to the parent's `import_cmd` parameter and drops the store id
(the resulting object has `import_cmd` equal to the live instance and
`store_id = None`); persisting such a wrapper always fails the
code/import mutual-exclusion assert. -/
theorem statedict_init_misbinding (cn p : String) (o : StateDictObj)
    (sid : Option Nat) (st : ROStore) :
    (mkStateDictROW cn (some p) (some o) sid).import_cmd = some (.obj o) ∧
    (mkStateDictROW cn (some p) (some o) sid).store_id = none ∧
    ((mkStateDictROW cn (some p) (some o) sid).persist st).1 =
      .error (.mutualExclusion codeSetMsg) := by
  refine ⟨rfl, rfl, ?_⟩
  simp [mkStateDictROW, StateDictROW.persist, StateDictROW.sdAbstractFields,
        ROStore.generateId]

/-! ### Helper lemmas -/

/-- Inserting a key then looking it up yields the inserted value. -/
theorem lookupS_insertA_self (l : Assoc) (k v : String) :
    lookupS (insertA l k v) k = some v := by
  induction l with
  | nil => simp [insertA, lookupS]
  | cons hd tl ih =>
      obtain ⟨a, b⟩ := hd
      by_cases h : a = k
      · simp [insertA, h, lookupS]
      · simp [insertA, h, lookupS, ih]

/-- Inserting one key leaves every other key's lookup unchanged. -/
theorem lookupS_insertA_ne (l : Assoc) (k v k' : String) (h : k' ≠ k) :
    lookupS (insertA l k v) k' = lookupS l k' := by
  induction l with
  | nil =>
      simp only [insertA, lookupS]
      rw [if_neg (fun hh : k = k' => h hh.symm)]
  | cons hd tl ih =>
      obtain ⟨a, b⟩ := hd
      by_cases ha : a = k
      · subst ha
        simp only [insertA, if_pos rfl, lookupS]
        simp only [if_neg (fun hh : a = k' => h hh.symm)]
      · simp [insertA, ha, lookupS, ih]

/-- The config merge leaves keys outside the config-arg set unchanged. -/
theorem lookupS_add_params_not_mem (ca : Assoc) (conf : String → String) :
    ∀ (ia : Assoc) (k : String), k ∉ keysA ca →
      lookupS (add_params_from_config ia ca conf) k = lookupS ia k := by
  induction ca with
  | nil => intro ia k _; rfl
  | cons hd tl ih =>
      intro ia k h
      obtain ⟨a, b⟩ := hd
      simp [keysA] at h
      have h1 : k ≠ a := h.1
      have h2 : k ∉ keysA tl := by simp [keysA]; exact h.2
      show lookupS (add_params_from_config (insertA ia a (conf b)) tl conf) k = _
      rw [ih (insertA ia a (conf b)) k h2, lookupS_insertA_ne _ _ _ _ h1]

/-- The config merge sets every config-arg key to its resolved value
(config keys are unique, coming from a Python dict). -/
theorem lookupS_add_params_mem (ca : Assoc) (conf : String → String) :
    ∀ (ia : Assoc) (k ck : String), (keysA ca).Nodup → (k, ck) ∈ ca →
      lookupS (add_params_from_config ia ca conf) k = some (conf ck) := by
  induction ca with
  | nil => intro ia k ck _ h; simp at h
  | cons hd tl ih =>
      intro ia k ck hnd hmem
      obtain ⟨a, b⟩ := hd
      have hcons := List.nodup_cons.mp (show (a :: keysA tl).Nodup from hnd)
      rcases List.mem_cons.mp hmem with heq | htl
      · injection heq with hk hb
        subst hk; subst hb
        show lookupS (add_params_from_config (insertA ia k (conf ck)) tl conf) k = _
        rw [lookupS_add_params_not_mem tl conf _ k hcons.1]
        exact lookupS_insertA_self ia k (conf ck)
      · exact ih (insertA ia a (conf b)) k ck hcons.2 htl

/-- `restore_instance` only reads the class name, init args, config
args, reference-arg names and import command: two wrappers agreeing on
those fields restore identically up to the code path (which is copied
verbatim into the result and its instance). -/
theorem restore_instance_congr (wa wb : RestorableObjectWrapper)
    (h1 : wb.class_name = wa.class_name) (h2 : wb.init_args = wa.init_args)
    (h3 : wb.config_args = wa.config_args) (h4 : wb.init_ref_type_args = wa.init_ref_type_args)
    (h5 : wb.import_cmd = wa.import_cmd) (refArgs : Option Assoc) (conf : String → String) :
    wb.restore_instance refArgs conf =
      (wa.restore_instance refArgs conf).map
        (fun r =>
          { r with
            code := wb.code,
            store_id := wb.store_id,
            inst := r.inst.map (fun i => { i with code := wb.code }) }) := by
  obtain ⟨cn, ia, ir, ca, co, ic, ins, sid⟩ := wa
  obtain ⟨cn2, ia2, ir2, ca2, co2, ic2, ins2, sid2⟩ := wb
  simp only [] at h1 h2 h3 h4 h5
  subst h1; subst h2; subst h3; subst h4; subst h5
  unfold RestorableObjectWrapper.restore_instance
  split
  · split
    · rfl
    · split
      · rfl
      · simp [Except.map]
  · simp [Except.map]

/-- What a successful `rowPersistFields` run does to the store and the
record: only blobs are uploaded (records, local files and the record
fields set by the driver are untouched). -/
theorem rowPersistFields_ok (w : RestorableObjectWrapper) (rep : RORecord) (st : ROStore)
    (rep' : RORecord) (st' : ROStore)
    (h : RestorableObjectWrapper.rowPersistFields w rep st = (.ok rep', st')) :
    st'.fs = st.fs ∧ st'.dicts = st.dicts ∧ st.nextId ≤ st'.nextId ∧
    rep'.rid = rep.rid ∧ rep'.state_file = rep.state_file := by
  rcases hc : w.code with _ | p
  · rcases hi : w.import_cmd with _ | cmd
    · simp [RestorableObjectWrapper.rowPersistFields,
            RestorableObjectWrapper.abstractPersistFields, hc, hi] at h
      obtain ⟨hrep, hst⟩ := h
      subst hrep; subst hst
      exact ⟨rfl, rfl, le_refl _, rfl, rfl⟩
    · simp [RestorableObjectWrapper.rowPersistFields,
            RestorableObjectWrapper.abstractPersistFields, hc, hi] at h
      obtain ⟨hrep, hst⟩ := h
      subst hrep; subst hst
      exact ⟨rfl, rfl, le_refl _, rfl, rfl⟩
  · rcases hi : w.import_cmd with _ | cmd
    · rcases hf : lookupS st.fs p with _ | content
      · simp [RestorableObjectWrapper.rowPersistFields,
              RestorableObjectWrapper.abstractPersistFields, ROStore.saveFile, hc, hi, hf] at h
      · simp [RestorableObjectWrapper.rowPersistFields,
              RestorableObjectWrapper.abstractPersistFields, ROStore.saveFile, hc, hi, hf] at h
        obtain ⟨hrep, hst⟩ := h
        subst hrep; subst hst
        exact ⟨rfl, rfl, Nat.le_succ _, rfl, rfl⟩
    · simp [RestorableObjectWrapper.rowPersistFields,
            RestorableObjectWrapper.abstractPersistFields, hc, hi] at h

/-- What a successful `StateFileWrapper.persist` run does: the returned
id is the freshly generated one, the id counter strictly advances, the
local filesystem is untouched, and exactly one new record carrying that
id is prepended to the record store. -/
theorem sfw_persist_ok (c : StateFileWrapper) (st : ROStore) (cid : Nat)
    (c' : StateFileWrapper) (st' : ROStore)
    (h : c.persist st = (.ok (cid, c'), st')) :
    cid = st.nextId ∧ st.nextId < st'.nextId ∧ st'.fs = st.fs ∧
    ∃ rec, st'.dicts = (cid, rec) :: st.dicts ∧ rec.rid = cid := by
  unfold StateFileWrapper.persist at h
  simp only [ROStore.generateId] at h
  rcases hrp : RestorableObjectWrapper.rowPersistFields c.toRestorableObjectWrapper
      (emptyRec st.nextId) { st with nextId := st.nextId + 1 } with ⟨res, stA⟩
  rw [hrp] at h
  cases res with
  | error e => simp at h
  | ok rep =>
      have hspec := rowPersistFields_ok _ _ _ _ _ hrp
      have h1 : st.nextId + 1 ≤ stA.nextId := hspec.2.2.1
      have hfs : stA.fs = st.fs := hspec.1
      have hdicts : stA.dicts = st.dicts := hspec.2.1
      have hrid : rep.rid = st.nextId := hspec.2.2.2.1
      rcases hin : c.instState with _ | content
      · simp [hin, ROStore.saveDict] at h
        obtain ⟨⟨hcid, hc'⟩, hst⟩ := h
        subst hcid; subst hst
        refine ⟨rfl, by simp; omega, by simp [hfs], ⟨rep, ?_, hrid⟩⟩
        rw [hrid, hdicts]
      · simp [hin, ROStore.saveDict] at h
        obtain ⟨⟨hcid, hc'⟩, hst⟩ := h
        subst hcid; subst hst
        refine ⟨rfl, by simp; omega, by simp [hfs],
                ⟨{ rep with state_file := some stA.nextId }, ?_, hrid⟩⟩
        simp [hrid, hdicts]

/-- What a successful `persistChildren` run does: the id counter only
advances, the local filesystem is untouched, records are only added,
and the returned mapping pairs each child's name in order with a fresh
id under which a record carrying that id was written. -/
theorem persistChildren_ok :
    ∀ (cs : List (String × StateFileWrapper)) (st : ROStore)
      (refs : List (String × Nat)) (st' : ROStore),
      persistChildren cs st = (.ok refs, st') →
      st.nextId ≤ st'.nextId ∧ st'.fs = st.fs ∧
      (∃ new, st'.dicts = new ++ st.dicts) ∧
      List.Forall₂ (fun (c : String × StateFileWrapper) (r : String × Nat) =>
        r.1 = c.1 ∧ st.nextId ≤ r.2 ∧
        ∃ rec, (r.2, rec) ∈ st'.dicts ∧ rec.rid = r.2) cs refs := by
  intro cs
  induction cs with
  | nil =>
      intro st refs st' h
      simp [persistChildren] at h
      obtain ⟨hr, hs⟩ := h
      subst hr; subst hs
      exact ⟨le_refl _, rfl, ⟨[], rfl⟩, List.Forall₂.nil⟩
  | cons hd tl ih =>
      intro st refs st' h
      obtain ⟨k, c⟩ := hd
      simp only [persistChildren] at h
      rcases hp : c.persist st with ⟨res1, stA⟩
      rw [hp] at h
      cases res1 with
      | error e => simp at h
      | ok pr =>
          obtain ⟨cid, c1⟩ := pr
          have hc := sfw_persist_ok c st cid c1 stA hp
          rcases hrest : persistChildren tl stA with ⟨res2, stB⟩
          simp only [hrest] at h
          cases res2 with
          | error e => simp at h
          | ok refs2 =>
              simp at h
              obtain ⟨hrefs, hstB⟩ := h
              subst hrefs; subst hstB
              obtain ⟨hcid, hlt, hfs, rec0, hdA, hrid⟩ := hc
              obtain ⟨hle2, hfs2, ⟨new2, hd2⟩, hfa⟩ := ih stA refs2 _ hrest
              refine ⟨by omega, by rw [hfs2, hfs], ?_, ?_⟩
              · exact ⟨new2 ++ [(cid, rec0)], by rw [hd2, hdA]; simp⟩
              · refine List.Forall₂.cons ⟨rfl, by omega, ⟨rec0, ?_, hrid⟩⟩ ?_
                · rw [hd2, hdA]; simp
                · exact hfa.imp (fun a b hab => ⟨hab.1, by omega, hab.2.2⟩)

/-- Strengthen a `Forall₂` pointwise using membership of the left
element. -/
theorem forall₂_mem_imp {α β : Type} {R S : α → β → Prop} :
    ∀ {l1 : List α} {l2 : List β}, List.Forall₂ R l1 l2 →
      (∀ a ∈ l1, ∀ b, R a b → S a b) → List.Forall₂ S l1 l2 := by
  intro l1 l2 h
  induction h with
  | nil => intro _; exact .nil
  | cons hab htl ih =>
      intro hS
      exact .cons (hS _ (List.mem_cons_self _ _) _ hab)
        (ih fun a ha b hr => hS a (List.mem_cons_of_mem _ ha) b hr)

/-- What a successful `sdAbstractFields` run does to the store and the
record. -/
theorem sdAbstractFields_ok (w : StateDictROW) (rep : RORecord) (st : ROStore)
    (rep' : RORecord) (st' : ROStore)
    (h : StateDictROW.sdAbstractFields w rep st = (.ok rep', st')) :
    st'.fs = st.fs ∧ st'.dicts = st.dicts ∧ st.nextId ≤ st'.nextId ∧
    rep'.rid = rep.rid ∧ rep'.state_dict = rep.state_dict := by
  rcases hc : w.code with _ | p
  · rcases hi : w.import_cmd with _ | slot
    · simp [StateDictROW.sdAbstractFields, hc, hi] at h
      obtain ⟨hrep, hst⟩ := h
      subst hrep; subst hst
      exact ⟨rfl, rfl, le_refl _, rfl, rfl⟩
    · cases slot with
      | str s =>
          simp [StateDictROW.sdAbstractFields, hc, hi] at h
          obtain ⟨hrep, hst⟩ := h
          subst hrep; subst hst
          exact ⟨rfl, rfl, le_refl _, rfl, rfl⟩
      | obj oo =>
          simp [StateDictROW.sdAbstractFields, hc, hi] at h
          obtain ⟨hrep, hst⟩ := h
          subst hrep; subst hst
          exact ⟨rfl, rfl, le_refl _, rfl, rfl⟩
  · rcases hi : w.import_cmd with _ | slot
    · rcases hf : lookupS st.fs p with _ | content
      · simp [StateDictROW.sdAbstractFields, ROStore.saveFile, hc, hi, hf] at h
      · simp [StateDictROW.sdAbstractFields, ROStore.saveFile, hc, hi, hf] at h
        obtain ⟨hrep, hst⟩ := h
        subst hrep; subst hst
        exact ⟨rfl, rfl, Nat.le_succ _, rfl, rfl⟩
    · simp [StateDictROW.sdAbstractFields, hc, hi] at h

/-! ### Remaining claim theorems -/

/-- C9: `restore_instance` permanently merges resolved config args into
the wrapper's stored init args: when `config_args` is non-empty the
returned wrapper's `init_args` is the in-place merge (one entry per
config key overwritten or added with the value resolved from the
configuration environment, all other entries unchanged); when
`config_args` is empty, `init_args` is unchanged. -/
theorem restore_instance_merges_config_into_init_args
    (w : RestorableObjectWrapper) (refArgs : Option Assoc) (conf : String → String)
    (res : RestorableObjectWrapper)
    (hok : w.restore_instance refArgs conf = .ok res) :
    (w.config_args = [] → res.init_args = w.init_args) ∧
    (w.config_args ≠ [] →
      res.init_args = add_params_from_config w.init_args w.config_args conf ∧
      ((keysA w.config_args).Nodup →
        ∀ k ck, (k, ck) ∈ w.config_args → lookupS res.init_args k = some (conf ck)) ∧
      (∀ k, k ∉ keysA w.config_args → lookupS res.init_args k = lookupS w.init_args k)) := by
  have hres : res.init_args =
      if w.config_args.length > 0 then
        add_params_from_config w.init_args w.config_args conf
      else w.init_args := by
    unfold RestorableObjectWrapper.restore_instance at hok
    split at hok
    · split at hok
      · simp at hok
      · split at hok
        · simp at hok
        · injection hok with h; subst h; rfl
    · injection hok with h; subst h; rfl
  constructor
  · intro hc; rw [hres, hc]; simp
  · intro hc
    have hlen : w.config_args.length > 0 := List.length_pos.mpr hc
    rw [hres, if_pos hlen]
    exact ⟨rfl, fun hnd k ck hm => lookupS_add_params_mem _ _ _ _ _ hnd hm,
           fun k hk => lookupS_add_params_not_mem _ _ _ _ hk⟩

/-- Witness for C9: the config arg `lr` of `exCfgW` is resolved to the
configuration value and merged into the restored wrapper's init args. -/
theorem restore_instance_merges_config_witness :
    exCfgW.restore_instance none exConf = .ok exCfgWRes ∧
    ((exCfgW.config_args = [] → exCfgWRes.init_args = exCfgW.init_args) ∧
     (exCfgW.config_args ≠ [] →
       exCfgWRes.init_args =
         add_params_from_config exCfgW.init_args exCfgW.config_args exConf ∧
       ((keysA exCfgW.config_args).Nodup →
         ∀ k ck, (k, ck) ∈ exCfgW.config_args →
           lookupS exCfgWRes.init_args k = some (exConf ck)) ∧
       (∀ k, k ∉ keysA exCfgW.config_args →
         lookupS exCfgWRes.init_args k = lookupS exCfgW.init_args k))) :=
  ⟨rfl, restore_instance_merges_config_into_init_args exCfgW none exConf exCfgWRes rfl⟩

/-- C1: round-trip of a persisted descriptor.  Whenever `persist`
succeeds and `load` of the returned id succeeds, the loaded wrapper has
the same class name, init args, config args, reference-arg names and
the same import command; it has a code file exactly when the original does, with
the same content (materialized at a fresh path under the restore root);
and `restore_instance` on the loaded wrapper behaves exactly as on the
original, producing an instance identical up to the relocated,
content-equal code path (a plain `RestorableObjectWrapper` has no state
blob). -/
theorem persist_load_roundtrip
    (w : RestorableObjectWrapper) (st : ROStore) (root : String)
    (sid : Nat) (w1 w2 : RestorableObjectWrapper) (st1 st2 : ROStore)
    (hp : w.persist st = (.ok (sid, w1), st1))
    (hl : RestorableObjectWrapper.load sid st1 root = (.ok w2, st2)) :
    w2.class_name = w.class_name ∧
    w2.init_args = w.init_args ∧
    w2.config_args = w.config_args ∧
    w2.init_ref_type_args = w.init_ref_type_args ∧
    w2.import_cmd = w.import_cmd ∧
    w2.code.isSome = w.code.isSome ∧
    codeContent st2 w2.code = codeContent st w.code ∧
    ∀ refArgs conf,
      w2.restore_instance refArgs conf =
        (w.restore_instance refArgs conf).map
          (fun r =>
            { r with
              code := w2.code,
              store_id := w2.store_id,
              inst := r.inst.map (fun i => { i with code := w2.code }) }) := by
  rcases hc : w.code with _ | p
  · rcases hi : w.import_cmd with _ | cmd
    · simp [RestorableObjectWrapper.persist, RestorableObjectWrapper.rowPersistFields,
            RestorableObjectWrapper.abstractPersistFields, ROStore.generateId,
            ROStore.saveDict, hc, hi] at hp
      obtain ⟨⟨hsid, hw1⟩, hst1⟩ := hp
      subst hsid; subst hst1
      simp [RestorableObjectWrapper.load, lookupN, emptyRec] at hl
      obtain ⟨hw2, hst2⟩ := hl
      subst hw2; subst hst2
      refine ⟨rfl, rfl, rfl, rfl, rfl, rfl, rfl, ?_⟩
      intro refArgs conf
      exact restore_instance_congr w
        { class_name := w.class_name, init_args := w.init_args,
          init_ref_type_args := w.init_ref_type_args, config_args := w.config_args,
          code := none, import_cmd := none, inst := none, store_id := some st.nextId }
        rfl rfl rfl rfl hi.symm refArgs conf
    · simp [RestorableObjectWrapper.persist, RestorableObjectWrapper.rowPersistFields,
            RestorableObjectWrapper.abstractPersistFields, ROStore.generateId,
            ROStore.saveDict, hc, hi] at hp
      obtain ⟨⟨hsid, hw1⟩, hst1⟩ := hp
      subst hsid; subst hst1
      simp [RestorableObjectWrapper.load, lookupN, emptyRec] at hl
      obtain ⟨hw2, hst2⟩ := hl
      subst hw2; subst hst2
      refine ⟨rfl, rfl, rfl, rfl, rfl, by simp [hc], rfl, ?_⟩
      intro refArgs conf
      exact restore_instance_congr w
        { class_name := w.class_name, init_args := w.init_args,
          init_ref_type_args := w.init_ref_type_args, config_args := w.config_args,
          code := none, import_cmd := some cmd, inst := none, store_id := some st.nextId }
        rfl rfl rfl rfl hi.symm refArgs conf
  · rcases hi : w.import_cmd with _ | cmd
    · rcases hf : lookupS st.fs p with _ | content
      · simp [RestorableObjectWrapper.persist, RestorableObjectWrapper.rowPersistFields,
              RestorableObjectWrapper.abstractPersistFields, ROStore.generateId,
              ROStore.saveFile, ROStore.saveDict, hc, hi, hf] at hp
      · simp [RestorableObjectWrapper.persist, RestorableObjectWrapper.rowPersistFields,
              RestorableObjectWrapper.abstractPersistFields, ROStore.generateId,
              ROStore.saveFile, ROStore.saveDict, hc, hi, hf] at hp
        obtain ⟨⟨hsid, hw1⟩, hst1⟩ := hp
        subst hsid; subst hst1
        simp [RestorableObjectWrapper.load, ROStore.recoverFile, lookupN, emptyRec] at hl
        obtain ⟨hw2, hst2⟩ := hl
        subst hw2; subst hst2
        refine ⟨rfl, rfl, rfl, rfl, rfl, by simp [hc], ?_, ?_⟩
        · simp [codeContent, lookupS, hc, hf]
        · intro refArgs conf
          exact restore_instance_congr w
            { class_name := w.class_name, init_args := w.init_args,
              init_ref_type_args := w.init_ref_type_args, config_args := w.config_args,
              code := some (root ++ "/" ++ toString (st.nextId + 1)), import_cmd := none,
              inst := none, store_id := some st.nextId }
            rfl rfl rfl rfl hi.symm refArgs conf
    · simp [RestorableObjectWrapper.persist, RestorableObjectWrapper.rowPersistFields,
            RestorableObjectWrapper.abstractPersistFields, ROStore.generateId, hc, hi] at hp

/-- Witness for C1: persisting and loading the example wrapper. -/
theorem persist_load_roundtrip_witness :
    exW.persist exStore = (.ok (0, exW1), exStore1) ∧
    RestorableObjectWrapper.load 0 exStore1 "root" = (.ok exW2, exStore2) ∧
    (exW2.class_name = exW.class_name ∧
     exW2.init_args = exW.init_args ∧
     exW2.config_args = exW.config_args ∧
     exW2.init_ref_type_args = exW.init_ref_type_args ∧
     exW2.import_cmd = exW.import_cmd ∧
     exW2.code.isSome = exW.code.isSome ∧
     codeContent exStore2 exW2.code = codeContent exStore exW.code ∧
     ∀ refArgs conf,
       exW2.restore_instance refArgs conf =
         (exW.restore_instance refArgs conf).map
           (fun r =>
             { r with
               code := exW2.code,
               store_id := exW2.store_id,
               inst := r.inst.map (fun i => { i with code := exW2.code }) })) :=
  ⟨rfl, rfl, persist_load_roundtrip exW exStore "root" 0 exW1 exW2 exStore1 exStore2 rfl rfl⟩

/-- C4: on a successful `save_model` run (no store failure), the
returned id is the model record's id, minted after the zip blob, the
code blob and the recover-info record in that order (ids are minted by
a monotone counter, so the id ordering is the write ordering); the
final store holds the model record with `store_type = PICKLED_MODEL`,
`derived_from = None` and `recover_info` pointing at the recover-info
record, which in turn references the two blobs, both present — so
everything the returned id transitively references was written before
the id was returned. -/
theorem save_model_writes_all_before_returning
    (name gc : String) (model : Nat) (code ir tmp : String) (st : SrvState)
    (hfail : st.failAt = none) :
    (save_model name gc model code ir tmp st).1 = .ok (st.nextId + 4) ∧
    lookupN (save_model name gc model code ir tmp st).2.modelDicts (st.nextId + 4) =
      some { name := name, store_type := 1, recover_info := st.nextId + 3,
             derived_from := none, inference_info := none, train_info := none } ∧
    lookupN (save_model name gc model code ir tmp st).2.recoverDicts (st.nextId + 3) =
      some { pickled_model := st.nextId + 1, model_code := st.nextId + 2,
             generate_call := gc, recover_val := none } ∧
    lookupN (save_model name gc model code ir tmp st).2.files (st.nextId + 1) =
      some (.zipArchive model code ir) ∧
    lookupN (save_model name gc model code ir tmp st).2.files (st.nextId + 2) =
      some (.codeFile code) := by
  simp [save_model, SrvState.trySaveFile, SrvState.trySaveRecoverDict,
        SrvState.trySaveModelDict, hfail, lookupN]

/-- Witness for C4: a successful run on the empty service state. -/
theorem save_model_writes_all_witness :
    exSrv.failAt = none ∧
    ((save_model "n" "call" 42 "m.py" "proj" "/tmp" exSrv).1 = .ok (exSrv.nextId + 4) ∧
     lookupN (save_model "n" "call" 42 "m.py" "proj" "/tmp" exSrv).2.modelDicts
         (exSrv.nextId + 4) =
       some { name := "n", store_type := 1, recover_info := exSrv.nextId + 3,
              derived_from := none, inference_info := none, train_info := none } ∧
     lookupN (save_model "n" "call" 42 "m.py" "proj" "/tmp" exSrv).2.recoverDicts
         (exSrv.nextId + 3) =
       some { pickled_model := exSrv.nextId + 1, model_code := exSrv.nextId + 2,
              generate_call := "call", recover_val := none } ∧
     lookupN (save_model "n" "call" 42 "m.py" "proj" "/tmp" exSrv).2.files
         (exSrv.nextId + 1) = some (.zipArchive 42 "m.py" "proj") ∧
     lookupN (save_model "n" "call" 42 "m.py" "proj" "/tmp" exSrv).2.files
         (exSrv.nextId + 2) = some (.codeFile "m.py")) :=
  ⟨rfl, save_model_writes_all_before_returning "n" "call" 42 "m.py" "proj" "/tmp" exSrv rfl⟩

/-- C7 (amended): the staging directory and archive created by
`save_model` are removed provided both blob uploads succeed — on the
normal return path and also when a later record write fails (`_clean`
runs right after the uploads); when a blob upload fails, they remain
(see the counterexample). -/
theorem save_model_cleans_staging_when_uploads_succeed
    (name gc : String) (model : Nat) (code ir tmp : String) (st : SrvState)
    (hstart : st.localFiles = []) (hop : st.opCount = 0)
    (hfail : ∀ k, st.failAt = some k → 2 ≤ k) :
    (save_model name gc model code ir tmp st).2.localFiles = [] := by
  have h0 : st.failAt ≠ some 0 := fun h => by have := hfail 0 h; omega
  have h1 : st.failAt ≠ some 1 := fun h => by have := hfail 1 h; omega
  by_cases hc2 : st.failAt = some 2 <;> by_cases hc3 : st.failAt = some 3 <;>
    simp [save_model, SrvState.trySaveFile, SrvState.trySaveRecoverDict,
          SrvState.trySaveModelDict, hop, hstart, h0, h1, hc2, hc3]

/-- Witness for C7: the staging root is empty after a successful run. -/
theorem save_model_cleans_staging_witness :
    exSrv.localFiles = [] ∧ exSrv.opCount = 0 ∧
    (∀ k, exSrv.failAt = some k → 2 ≤ k) ∧
    (save_model "n" "call" 42 "m.py" "proj" "/tmp" exSrv).2.localFiles = [] :=
  ⟨rfl, rfl, by simp [exSrv],
   save_model_cleans_staging_when_uploads_succeed "n" "call" 42 "m.py" "proj" "/tmp" exSrv
     rfl rfl (by simp [exSrv])⟩

/-- C8: persisting a composite wrapper whose live instance holds named
child wrappers persists every child first and stores the name → id
mapping in the composite's own record under the state-dict key: the
returned id resolves to a record whose state-dict field pairs each
child's name, in mapping order, with an id that is fresh (distinct from
every id already in the record store and from the child's previous
store id) and under which the child's record was written. -/
theorem statedict_persist_children_first
    (w : StateDictROW) (st : ROStore) (o : StateDictObj)
    (sid : Nat) (w' : StateDictROW) (st' : ROStore)
    (hinst : w.inst = some o)
    (hwfDict : ∀ q ∈ st.dicts, q.1 < st.nextId)
    (hwfChild : ∀ c ∈ o.state_objs, ∀ oid, (c.2).store_id = some oid → oid < st.nextId)
    (hp : w.persist st = (.ok (sid, w'), st')) :
    ∃ rep refs,
      lookupN st'.dicts sid = some rep ∧
      rep.state_dict = some refs ∧
      List.Forall₂ (fun (c : String × StateFileWrapper) (r : String × Nat) =>
        r.1 = c.1 ∧
        (∀ q ∈ st.dicts, q.1 ≠ r.2) ∧
        (∀ oid, (c.2).store_id = some oid → r.2 ≠ oid) ∧
        ∃ rec, (r.2, rec) ∈ st'.dicts ∧ rec.rid = r.2) o.state_objs refs := by
  unfold StateDictROW.persist at hp
  simp only [ROStore.generateId] at hp
  rcases h1 : StateDictROW.sdAbstractFields w (emptyRec st.nextId)
      { st with nextId := st.nextId + 1 } with ⟨res1, stA⟩
  rw [h1] at hp
  cases res1 with
  | error e => simp at hp
  | ok rep1 =>
      have hA := sdAbstractFields_ok _ _ _ _ _ h1
      rcases h2 : persistChildren o.state_objs stA with ⟨res2, stB⟩
      simp only [hinst, h2] at hp
      cases res2 with
      | error e => simp at hp
      | ok refs =>
          simp [ROStore.saveDict] at hp
          obtain ⟨⟨hsid, hw'⟩, hst'⟩ := hp
          subst hsid; subst hst'
          obtain ⟨hle, hfs, ⟨new, hdn⟩, hfa⟩ :=
            persistChildren_ok o.state_objs stA refs stB h2
          have hrid : rep1.rid = st.nextId := hA.2.2.2.1
          have hAd : stA.dicts = st.dicts := hA.2.1
          have hAn : st.nextId + 1 ≤ stA.nextId := hA.2.2.1
          refine ⟨{ rep1 with state_dict := some refs }, refs, ?_, rfl, ?_⟩
          · simp [lookupN, hrid]
          · refine forall₂_mem_imp hfa ?_
            intro c hcmem r hr
            obtain ⟨hname, hbound, rec, hmem, hrecid⟩ := hr
            refine ⟨hname, ?_, ?_, ⟨rec, List.mem_cons_of_mem _ hmem, hrecid⟩⟩
            · intro q hq
              have := hwfDict q hq
              omega
            · intro oid hoid
              have := hwfChild c hcmem oid hoid
              omega

/-- Witness for C8: persisting the example composite writes the child's
record under the fresh id 7 and the composite's record (holding the
mapping `optimizer → 7`) under id 5. -/
theorem statedict_persist_children_first_witness :
    exComp.inst = some exCompObj ∧
    (∀ q ∈ exCompStore.dicts, q.1 < exCompStore.nextId) ∧
    (∀ c ∈ exCompObj.state_objs, ∀ oid,
      (c.2).store_id = some oid → oid < exCompStore.nextId) ∧
    exComp.persist exCompStore = (.ok (5, exComp1), exCompStore1) ∧
    (∃ rep refs,
      lookupN exCompStore1.dicts 5 = some rep ∧
      rep.state_dict = some refs ∧
      List.Forall₂ (fun (c : String × StateFileWrapper) (r : String × Nat) =>
        r.1 = c.1 ∧
        (∀ q ∈ exCompStore.dicts, q.1 ≠ r.2) ∧
        (∀ oid, (c.2).store_id = some oid → r.2 ≠ oid) ∧
        ∃ rec, (r.2, rec) ∈ exCompStore1.dicts ∧ rec.rid = r.2)
        exCompObj.state_objs refs) :=
  ⟨rfl, by simp [exCompStore],
   by
     intro c hc oid hoid
     simp [exCompObj] at hc
     rw [hc] at hoid
     simp [exChild] at hoid
     subst hoid
     decide,
   rfl,
   statedict_persist_children_first exComp exCompStore exCompObj 5 exComp1 exCompStore1
     rfl (by simp [exCompStore])
     (by
       intro c hc oid hoid
       simp [exCompObj] at hc
       rw [hc] at hoid
       simp [exChild] at hoid
       subst hoid
       decide)
     rfl⟩

end Mmlib
